import Mathlib

/-!
Verification of the domainstats pipeline: a shallow embedding of the
configuration-driven CSV row/header derivation (src/lib/config_extract.go),
the query planner and dispatch (src/lib/config.go, src/domain_query.go),
the per-domain processing loop (src/main.go), and the HTTP retry loop of the
vendored goinvestigate client (goinvestigate.go), together with theorems
about the properties these components are documented to satisfy.

Modelling conventions:
  * Go slices become Lean lists; `append(row, x)` becomes `row ++ [x]`.
  * Go's reflection over boolean struct fields (the `any` helper and the
    `appendFields` closure in DeriveHeader) is replaced by explicit
    enumerations of each struct's fields in declared order, which is exactly
    what the reflection iterates over.
  * Go float64 values are abstracted by their rendered decimal string
    (strconv.FormatFloat(f, 'f', -1, 64)); no verified claim depends on
    numeric float semantics, only on each value contributing one token.
  * Fallible Go calls (resp, err) become Except String.
  * Channels are concurrency plumbing with exactly-once delivery per query;
    the per-domain processing loop is modelled on the sequence of results it
    reads back, in planning order, as the source does.
-/

/-- Go float64, abstracted by its shortest round-trip decimal rendering. -/
structure GoFloat where
  render : String
deriving Repr, DecidableEq

/-- strconv.FormatFloat(f, 'f', -1, 64) wrapper (convertFloatToStr in the source). -/
def convertFloatToStr (f : GoFloat) : String := f.render

/-- strconv.Itoa. -/
def intToStr (i : Int) : String := toString i

/-- strconv.FormatBool. -/
def boolToStr (b : Bool) : String := if b then "true" else "false"

/-- appendIf from config_extract.go: appends appendVal to source if cond is true. -/
def appendIf (source : List String) (appendVal : String) (cond : Bool) : List String :=
  if cond then source ++ [appendVal] else source

/- ## goinvestigate response types (goinvestigate.go API types) -/

structure DomainCategorization where
  Status : Int
  ContentCategories : List String
  SecurityCategories : List String
deriving Repr, DecidableEq

structure Cooccurrence where
  Domain : String
  Score : GoFloat
deriving Repr, DecidableEq

structure RelatedDomain where
  Domain : String
  Score : Int
deriving Repr, DecidableEq

structure GeoFeatures where
  CountryCode : String
  VisitRatio : GoFloat
deriving Repr, DecidableEq

structure SecurityFeatures where
  DGAScore : GoFloat
  Perplexity : GoFloat
  Entropy : GoFloat
  SecureRank2 : GoFloat
  PageRank : GoFloat
  ASNScore : GoFloat
  PrefixScore : GoFloat
  RIPScore : GoFloat
  Fastflux : Bool
  Popularity : GoFloat
  Geodiversity : List GeoFeatures
  GeodiversityNormalized : List GeoFeatures
  TLDGeodiversity : List GeoFeatures
  Geoscore : GoFloat
  KSTest : GoFloat
  Attack : String
  ThreatType : String
deriving Repr, DecidableEq

structure PeriodType where
  Begin : String
  End : String
deriving Repr, DecidableEq

structure DomainTag where
  Url : String
  Category : String
  Period : PeriodType
deriving Repr, DecidableEq

/-- Resource record; the Go field named `Type` is `Type_` here (Lean keyword). -/
structure ResourceRecord where
  Name : String
  TTL : Int
  Class : String
  Type_ : String
  RR : String
deriving Repr, DecidableEq

structure ResourceRecordPeriod where
  FirstSeen : String
  LastSeen : String
  RRs : List ResourceRecord
deriving Repr, DecidableEq

structure Location where
  Lat : GoFloat
  Lon : GoFloat
deriving Repr, DecidableEq

structure DomainResourceRecordFeatures where
  Age : Int
  TTLsMin : Int
  TTLsMax : Int
  TTLsMean : GoFloat
  TTLsMedian : GoFloat
  TTLsStdDev : GoFloat
  CountryCodes : List String
  ASNs : List Int
  Prefixes : List String
  RIPSCount : Int
  RIPSDiversity : GoFloat
  Locations : List Location
  GeoDistanceSum : GoFloat
  GeoDistanceMean : GoFloat
  NonRoutable : Bool
  MailExchanger : Bool
  CName : Bool
  FFCandidate : Bool
  RIPSStability : GoFloat
  BaseDomain : String
  IsSubdomain : Bool
deriving Repr, DecidableEq

structure DomainRRHistory where
  RRPeriods : List ResourceRecordPeriod
  RRFeatures : DomainResourceRecordFeatures
deriving Repr, DecidableEq

/- ## Feature Selector (Config tree, src/lib/config.go) -/

structure CategoriesConfig where
  Labels : Bool
  SecurityCategories : Bool
  ContentCategories : Bool
deriving Repr, DecidableEq

structure DomainScoreConfig where
  Domain : Bool
  Score : Bool
deriving Repr, DecidableEq

structure SecurityConfig where
  DGAScore : Bool
  Perplexity : Bool
  Entropy : Bool
  SecureRank2 : Bool
  PageRank : Bool
  ASNScore : Bool
  PrefixScore : Bool
  RIPScore : Bool
  Popularity : Bool
  Fastflux : Bool
  Geodiversity : Bool
  GeodiversityNormalized : Bool
  TLDGeodiversity : Bool
  Geoscore : Bool
  KSTest : Bool
  Attack : Bool
  ThreatType : Bool
deriving Repr, DecidableEq

structure TaggingDatesConfig where
  Begin : Bool
  End : Bool
  Category : Bool
  Url : Bool
deriving Repr, DecidableEq

structure DomainRRHistoryPeriodConfig where
  FirstSeen : Bool
  LastSeen : Bool
  Name : Bool
  TTL : Bool
  Class : Bool
  Type_ : Bool
  RR : Bool
deriving Repr, DecidableEq

/-- RR-History feature flags. The extraction code (config_extract.go lines
188-189) and the internal test reference BaseDomain and IsSubdomain flags, so
the canonical struct carries all 21, as the spec's version-drift note
prescribes for both header derivation and extraction. -/
structure DomainRRHistoryFeaturesConfig where
  Age : Bool
  TTLsMin : Bool
  TTLsMax : Bool
  TTLsMean : Bool
  TTLsMedian : Bool
  TTLsStdDev : Bool
  CountryCodes : Bool
  ASNs : Bool
  Prefixes : Bool
  RIPSCount : Bool
  RIPSDiversity : Bool
  Locations : Bool
  GeoDistanceSum : Bool
  GeoDistanceMean : Bool
  NonRoutable : Bool
  MailExchanger : Bool
  CName : Bool
  FFCandidate : Bool
  RIPSStability : Bool
  BaseDomain : Bool
  IsSubdomain : Bool
deriving Repr, DecidableEq

structure DomainRRHistoryConfig where
  Periods : DomainRRHistoryPeriodConfig
  Features : DomainRRHistoryFeaturesConfig
deriving Repr, DecidableEq

structure Config where
  APIKey : String
  Status : Bool
  Categories : CategoriesConfig
  Cooccurrences : DomainScoreConfig
  Related : DomainScoreConfig
  Security : SecurityConfig
  TaggingDates : TaggingDatesConfig
  DomainRRHistory : DomainRRHistoryConfig
deriving Repr, DecidableEq

/- The Go helper `any` ORs all bool fields of a struct via reflection, in
declared field order; one explicit instance per struct it is applied to. -/

def anyCategories (c : CategoriesConfig) : Bool :=
  c.Labels || c.SecurityCategories || c.ContentCategories

def anyDomainScore (c : DomainScoreConfig) : Bool :=
  c.Domain || c.Score

def anySecurity (s : SecurityConfig) : Bool :=
  s.DGAScore || s.Perplexity || s.Entropy || s.SecureRank2 || s.PageRank ||
  s.ASNScore || s.PrefixScore || s.RIPScore || s.Popularity || s.Fastflux ||
  s.Geodiversity || s.GeodiversityNormalized || s.TLDGeodiversity ||
  s.Geoscore || s.KSTest || s.Attack || s.ThreatType

def anyTaggingDates (t : TaggingDatesConfig) : Bool :=
  t.Begin || t.End || t.Category || t.Url

def anyPeriods (p : DomainRRHistoryPeriodConfig) : Bool :=
  p.FirstSeen || p.LastSeen || p.Name || p.TTL || p.Class || p.Type_ || p.RR

def anyFeatures (f : DomainRRHistoryFeaturesConfig) : Bool :=
  f.Age || f.TTLsMin || f.TTLsMax || f.TTLsMean || f.TTLsMedian ||
  f.TTLsStdDev || f.CountryCodes || f.ASNs || f.Prefixes || f.RIPSCount ||
  f.RIPSDiversity || f.Locations || f.GeoDistanceSum || f.GeoDistanceMean ||
  f.NonRoutable || f.MailExchanger || f.CName || f.FFCandidate ||
  f.RIPSStability || f.BaseDomain || f.IsSubdomain

/- ## Response Extractor (config_extract.go) -/

/-- extractDomainCatInfo: conditional appends of Status and the two category
lists (comma-joined). -/
def extractDomainCatInfo (c : Config) (resp : DomainCategorization) : List String :=
  (if c.Status then [intToStr resp.Status] else []) ++
  (if c.Categories.SecurityCategories then [String.intercalate ", " resp.SecurityCategories] else []) ++
  (if c.Categories.ContentCategories then [String.intercalate ", " resp.ContentCategories] else [])

/-- The per-entry contribution of the related-domain loop body: with Domain on,
the entry is the domain, getting ":score" glued on when Score is also on; with
only Score on, an empty string is appended and the score glued on; with both
off the loop body appends nothing. -/
def relatedEntries (dsc : DomainScoreConfig) : List RelatedDomain → List String
  | [] => []
  | rd :: rest =>
    (if dsc.Domain then
      [rd.Domain ++ (if dsc.Score then ":" ++ intToStr rd.Score else "")]
     else if dsc.Score then ["" ++ intToStr rd.Score]
     else []) ++ relatedEntries dsc rest

/-- extractRelatedDomainInfo: singleton comma-joined field. -/
def extractRelatedDomainInfo (c : Config) (resp : List RelatedDomain) : List String :=
  if resp.length == 0 && anyDomainScore c.Related then [""]
  else
    let row := relatedEntries c.Related resp
    if row.length == 0 then [] else [String.intercalate ", " row]

/-- Loop body of extractCooccurrenceInfo, same shape as relatedEntries but
with a float score. -/
def coocEntries (dsc : DomainScoreConfig) : List Cooccurrence → List String
  | [] => []
  | cooc :: rest =>
    (if dsc.Domain then
      [cooc.Domain ++ (if dsc.Score then ":" ++ convertFloatToStr cooc.Score else "")]
     else if dsc.Score then ["" ++ convertFloatToStr cooc.Score]
     else []) ++ coocEntries dsc rest

/-- extractCooccurrenceInfo: singleton comma-joined field. -/
def extractCooccurrenceInfo (c : Config) (resp : List Cooccurrence) : List String :=
  if resp.length == 0 && anyDomainScore c.Cooccurrences then [""]
  else
    let row := coocEntries c.Cooccurrences resp
    if row.length == 0 then [] else [String.intercalate ", " row]

/-- geoString: comma-joined countryCode:visitRatio pairs. -/
def geoString (gs : List GeoFeatures) : String :=
  String.intercalate ", "
    (gs.map (fun g => String.intercalate ":" [g.CountryCode, convertFloatToStr g.VisitRatio]))

/-- extractSecurityFeaturesInfo: the appendIf chain over the 17 security
flags, in source order. -/
def extractSecurityFeaturesInfo (c : Config) (resp : SecurityFeatures) : List String :=
  appendIf (appendIf (appendIf (appendIf (appendIf (appendIf (appendIf (appendIf
  (appendIf (appendIf (appendIf (appendIf (appendIf (appendIf (appendIf (appendIf
  (appendIf []
    (convertFloatToStr resp.DGAScore) c.Security.DGAScore)
    (convertFloatToStr resp.Perplexity) c.Security.Perplexity)
    (convertFloatToStr resp.Entropy) c.Security.Entropy)
    (convertFloatToStr resp.SecureRank2) c.Security.SecureRank2)
    (convertFloatToStr resp.PageRank) c.Security.PageRank)
    (convertFloatToStr resp.ASNScore) c.Security.ASNScore)
    (convertFloatToStr resp.PrefixScore) c.Security.PrefixScore)
    (convertFloatToStr resp.RIPScore) c.Security.RIPScore)
    (convertFloatToStr resp.Popularity) c.Security.Popularity)
    (boolToStr resp.Fastflux) c.Security.Fastflux)
    (geoString resp.Geodiversity) c.Security.Geodiversity)
    (geoString resp.GeodiversityNormalized) c.Security.GeodiversityNormalized)
    (geoString resp.TLDGeodiversity) c.Security.TLDGeodiversity)
    (convertFloatToStr resp.Geoscore) c.Security.Geoscore)
    (convertFloatToStr resp.KSTest) c.Security.KSTest)
    resp.Attack c.Security.Attack)
    resp.ThreatType c.Security.ThreatType

/-- Per-tag loop body of extractDomainTagInfo: the colon-joined sub-fields the
tag yields, skipped entirely when no sub-field is selected. -/
def tagEntries (t : TaggingDatesConfig) : List DomainTag → List String
  | [] => []
  | dt :: rest =>
    (let fieldStrs :=
      appendIf (appendIf (appendIf (appendIf [] dt.Url t.Url)
        dt.Category t.Category) dt.Period.Begin t.Begin) dt.Period.End t.End
     if fieldStrs.length == 0 then [] else [String.intercalate ":" fieldStrs]) ++
    tagEntries t rest

/-- extractDomainTagInfo (config_extract.go lines 124-149): inactive section
yields no field; an active section collapses all tags into one comma-joined
field, with a blank placeholder when there is no tag data. -/
def extractDomainTagInfo (c : Config) (resp : List DomainTag) : List String :=
  if !(anyTaggingDates c.TaggingDates) then []
  else
    let dtStrs := tagEntries c.TaggingDates resp
    if dtStrs.length == 0 && anyTaggingDates c.TaggingDates then [""]
    else [String.intercalate ", " dtStrs]

/-- locsToStr: comma-joined lat:lon pairs. -/
def locsToStr (locs : List Location) : String :=
  String.intercalate ", "
    (locs.map (fun loc =>
      String.intercalate ":" [convertFloatToStr loc.Lat, convertFloatToStr loc.Lon]))

/-- The record-level strings of one rrPeriodsToStr inner iteration (rrStrs). -/
def rrStrsFor (pc : DomainRRHistoryPeriodConfig) (rr : ResourceRecord) : List String :=
  appendIf (appendIf (appendIf (appendIf (appendIf [] rr.Name pc.Name)
    (intToStr rr.TTL) pc.TTL) rr.Class pc.Class) rr.Type_ pc.Type_) rr.RR pc.RR

/-- Inner loop of rrPeriodsToStr: each resource record yields the colon-join
of the period-level strings and its own selected fields, skipped when that
union of selected fields is empty. -/
def rrEntries (pc : DomainRRHistoryPeriodConfig) (flStrs : List String) :
    List ResourceRecord → List String
  | [] => []
  | rr :: rest =>
    (let flrr := flStrs ++ rrStrsFor pc rr
     if flrr.length == 0 then [] else [String.intercalate ":" flrr]) ++
    rrEntries pc flStrs rest

/-- Period-level strings of rrPeriodsToStr (FirstSeen/LastSeen). -/
def flStrsFor (pc : DomainRRHistoryPeriodConfig) (p : ResourceRecordPeriod) : List String :=
  appendIf (appendIf [] p.FirstSeen pc.FirstSeen) p.LastSeen pc.LastSeen

/-- Outer loop of rrPeriodsToStr over the periods. -/
def periodsEntries (pc : DomainRRHistoryPeriodConfig) :
    List ResourceRecordPeriod → List String
  | [] => []
  | p :: rest => rrEntries pc (flStrsFor pc p) p.RRs ++ periodsEntries pc rest

/-- rrPeriodsToStr: comma-join of all period/record entries. -/
def rrPeriodsToStr (c : Config) (periods : List ResourceRecordPeriod) : String :=
  String.intercalate ", " (periodsEntries c.DomainRRHistory.Periods periods)

/-- The appendIf chain over the 21 RR-feature flags of
extractDomainRRHistoryInfo, in source order, threaded from the given row. -/
def featuresSubRow (c : Config) (f : DomainResourceRecordFeatures) : List String :=
  appendIf (appendIf (appendIf (appendIf (appendIf (appendIf (appendIf
  (appendIf (appendIf (appendIf (appendIf (appendIf (appendIf (appendIf
  (appendIf (appendIf (appendIf (appendIf (appendIf (appendIf (appendIf []
    (intToStr f.Age) c.DomainRRHistory.Features.Age)
    (intToStr f.TTLsMin) c.DomainRRHistory.Features.TTLsMin)
    (intToStr f.TTLsMax) c.DomainRRHistory.Features.TTLsMax)
    (convertFloatToStr f.TTLsMean) c.DomainRRHistory.Features.TTLsMean)
    (convertFloatToStr f.TTLsMedian) c.DomainRRHistory.Features.TTLsMedian)
    (convertFloatToStr f.TTLsStdDev) c.DomainRRHistory.Features.TTLsStdDev)
    (String.intercalate ", " f.CountryCodes) c.DomainRRHistory.Features.CountryCodes)
    (String.intercalate ", " (f.ASNs.map intToStr)) c.DomainRRHistory.Features.ASNs)
    (String.intercalate ", " f.Prefixes) c.DomainRRHistory.Features.Prefixes)
    (intToStr f.RIPSCount) c.DomainRRHistory.Features.RIPSCount)
    (convertFloatToStr f.RIPSDiversity) c.DomainRRHistory.Features.RIPSDiversity)
    (locsToStr f.Locations) c.DomainRRHistory.Features.Locations)
    (convertFloatToStr f.GeoDistanceSum) c.DomainRRHistory.Features.GeoDistanceSum)
    (convertFloatToStr f.GeoDistanceMean) c.DomainRRHistory.Features.GeoDistanceMean)
    (boolToStr f.NonRoutable) c.DomainRRHistory.Features.NonRoutable)
    (boolToStr f.MailExchanger) c.DomainRRHistory.Features.MailExchanger)
    (boolToStr f.CName) c.DomainRRHistory.Features.CName)
    (boolToStr f.FFCandidate) c.DomainRRHistory.Features.FFCandidate)
    (convertFloatToStr f.RIPSStability) c.DomainRRHistory.Features.RIPSStability)
    f.BaseDomain c.DomainRRHistory.Features.BaseDomain)
    (boolToStr f.IsSubdomain) c.DomainRRHistory.Features.IsSubdomain

/-- extractDomainRRHistoryInfo: the RR-Periods single field (when the Periods
sub-section is active) followed by the appendIf chain over the feature flags.
The Go code threads `row` through the appendIf chain; since appendIf only ever
appends on the right, that chain equals the row followed by the chain grown
from nil. -/
def extractDomainRRHistoryInfo (c : Config) (resp : DomainRRHistory) : List String :=
  (if anyPeriods c.DomainRRHistory.Periods then [rrPeriodsToStr c resp.RRPeriods] else []) ++
  featuresSubRow c resp.RRFeatures

/-- The dynamic type of a response payload (the Go interface value handed to
ExtractCSVSubRow); `other` stands for every runtime type outside the six
expected ones, reaching the type switch's default branch. -/
inductive GoinvResp where
  | domainCat (resp : DomainCategorization)
  | relatedList (resp : List RelatedDomain)
  | coocList (resp : List Cooccurrence)
  | secFeatures (resp : SecurityFeatures)
  | tagList (resp : List DomainTag)
  | rrHistory (resp : DomainRRHistory)
  | other
deriving Repr, DecidableEq

/-- ExtractCSVSubRow: type switch over the payload's runtime type. -/
def ExtractCSVSubRow (c : Config) : GoinvResp → Except String (List String)
  | .domainCat resp => .ok (extractDomainCatInfo c resp)
  | .relatedList resp => .ok (extractRelatedDomainInfo c resp)
  | .coocList resp => .ok (extractCooccurrenceInfo c resp)
  | .secFeatures resp => .ok (extractSecurityFeaturesInfo c resp)
  | .tagList resp => .ok (extractDomainTagInfo c resp)
  | .rrHistory resp => .ok (extractDomainRRHistoryInfo c resp)
  | .other => .error "invalid type"

/- ## Header Deriver (DeriveHeader, config_extract.go lines 278-320) -/

/-- appendField closure of DeriveHeader. -/
def appendField (header : List String) (field : String) (cond : Bool) : List String :=
  if cond then header ++ [field] else header

/-- appendFields closure of DeriveHeader: iterates a struct's (name, value)
fields in declared order, appending each name whose value is true, except the
non-data "Labels" toggle. -/
def appendFieldsOver (header : List String) : List (String × Bool) → List String
  | [] => header
  | nb :: rest => appendFieldsOver (if nb.1 != "Labels" && nb.2 then header ++ [nb.1] else header) rest

/-- Declared field order of CategoriesConfig, as reflection enumerates it. -/
def categoriesFields (c : CategoriesConfig) : List (String × Bool) :=
  [("Labels", c.Labels), ("SecurityCategories", c.SecurityCategories),
   ("ContentCategories", c.ContentCategories)]

/-- Declared field order of SecurityConfig. -/
def securityFields (s : SecurityConfig) : List (String × Bool) :=
  [("DGAScore", s.DGAScore), ("Perplexity", s.Perplexity), ("Entropy", s.Entropy),
   ("SecureRank2", s.SecureRank2), ("PageRank", s.PageRank), ("ASNScore", s.ASNScore),
   ("PrefixScore", s.PrefixScore), ("RIPScore", s.RIPScore), ("Popularity", s.Popularity),
   ("Fastflux", s.Fastflux), ("Geodiversity", s.Geodiversity),
   ("GeodiversityNormalized", s.GeodiversityNormalized),
   ("TLDGeodiversity", s.TLDGeodiversity), ("Geoscore", s.Geoscore),
   ("KSTest", s.KSTest), ("Attack", s.Attack), ("ThreatType", s.ThreatType)]

/-- Declared field order of DomainRRHistoryFeaturesConfig. -/
def featuresFields (f : DomainRRHistoryFeaturesConfig) : List (String × Bool) :=
  [("Age", f.Age), ("TTLsMin", f.TTLsMin), ("TTLsMax", f.TTLsMax),
   ("TTLsMean", f.TTLsMean), ("TTLsMedian", f.TTLsMedian), ("TTLsStdDev", f.TTLsStdDev),
   ("CountryCodes", f.CountryCodes), ("ASNs", f.ASNs), ("Prefixes", f.Prefixes),
   ("RIPSCount", f.RIPSCount), ("RIPSDiversity", f.RIPSDiversity),
   ("Locations", f.Locations), ("GeoDistanceSum", f.GeoDistanceSum),
   ("GeoDistanceMean", f.GeoDistanceMean), ("NonRoutable", f.NonRoutable),
   ("MailExchanger", f.MailExchanger), ("CName", f.CName),
   ("FFCandidate", f.FFCandidate), ("RIPSStability", f.RIPSStability),
   ("BaseDomain", f.BaseDomain), ("IsSubdomain", f.IsSubdomain)]

/-- DeriveHeader: the Domain column followed by the per-section fields in the
same order the queries are constructed. -/
def DeriveHeader (c : Config) : List String :=
  let h0 : List String := ["Domain"]
  let h1 := appendField h0 "Status" c.Status
  let h2 := appendFieldsOver h1 (categoriesFields c.Categories)
  let h3 := if anyDomainScore c.Cooccurrences then appendField h2 "Cooccurrences" true else h2
  let h4 := if anyDomainScore c.Related then appendField h3 "RelatedDomains" true else h3
  let h5 := appendFieldsOver h4 (securityFields c.Security)
  let h6 := if anyTaggingDates c.TaggingDates then appendField h5 "TaggingDates" true else h5
  let h7 := if anyPeriods c.DomainRRHistory.Periods then appendField h6 "RR Periods" true else h6
  appendFieldsOver h7 (featuresFields c.DomainRRHistory.Features)

/- ## Query Planner and dispatch (config.go DeriveMessages, domain_query.go) -/

/-- The concrete DomainQueryType structs of domain_query.go, with the domain
they carry; the Investigate handle and the response channel are supplied at
dispatch / delivery time. -/
inductive DomainQueryType where
  | categorizationQuery (domain : String) (labels : Bool)
  | cooccurrencesQuery (domain : String)
  | relatedQuery (domain : String)
  | securityQuery (domain : String)
  | domainTagsQuery (domain : String)
  | domainRRHistoryQuery (domain : String) (queryType : String)
deriving Repr, DecidableEq

/-- DeriveMessages: one query per active section, in fixed order. Each Go
message also carries a fresh buffered response channel (capacity 1), a
concurrency artifact not modelled here. -/
def DeriveMessages (c : Config) (domain : String) : List DomainQueryType :=
  (if anyCategories c.Categories || c.Status then
    [.categorizationQuery domain c.Categories.Labels] else []) ++
  (if anyDomainScore c.Cooccurrences then [.cooccurrencesQuery domain] else []) ++
  (if anyDomainScore c.Related then [.relatedQuery domain] else []) ++
  (if anySecurity c.Security then [.securityQuery domain] else []) ++
  (if anyTaggingDates c.TaggingDates then [.domainTagsQuery domain] else []) ++
  (if anyPeriods c.DomainRRHistory.Periods || anyFeatures c.DomainRRHistory.Features then
    [.domainRRHistoryQuery domain "A"] else [])

/-- The external API client (goinvestigate.Investigate), one function per
endpoint method the queries dispatch to. -/
structure Investigate where
  categorization : String → Bool → Except String DomainCategorization
  relatedDomains : String → Except String (List RelatedDomain)
  cooccurrences : String → Except String (List Cooccurrence)
  security : String → Except String SecurityFeatures
  domainTags : String → Except String (List DomainTag)
  domainRRHistory : String → String → Except String DomainRRHistory

/-- DomainQueryResponse: a (Resp, Err) pair; exactly one side is set. -/
abbrev DomainQueryResponse := Except String GoinvResp

/-- The Query() methods of domain_query.go: each struct invokes one client
method and boxes the typed result. NOTE (domain_query.go lines 47-50): the
CooccurrencesQuery body calls q.Inv.RelatedDomains, not q.Inv.Cooccurrences,
so its payload is a RelatedDomain list. -/
def DomainQueryType.runQuery (inv : Investigate) : DomainQueryType → DomainQueryResponse
  | .categorizationQuery domain labels => (inv.categorization domain labels).map .domainCat
  | .cooccurrencesQuery domain => (inv.relatedDomains domain).map .relatedList
  | .relatedQuery domain => (inv.relatedDomains domain).map .relatedList
  | .securityQuery domain => (inv.security domain).map .secFeatures
  | .domainTagsQuery domain => (inv.domainTags domain).map .tagList
  | .domainRRHistoryQuery domain queryType =>
      (inv.domainRRHistory domain queryType).map .rrHistory

/-- The payload kind a section's query is supposed to produce (the type its
ExtractCSVSubRow case expects). -/
inductive RespKind where
  | domainCat
  | relatedList
  | coocList
  | secFeatures
  | tagList
  | rrHistory
  | otherKind
deriving Repr, DecidableEq

/-- Runtime type tag of a payload. -/
def GoinvResp.kindOf : GoinvResp → RespKind
  | .domainCat _ => .domainCat
  | .relatedList _ => .relatedList
  | .coocList _ => .coocList
  | .secFeatures _ => .secFeatures
  | .tagList _ => .tagList
  | .rrHistory _ => .rrHistory
  | .other => .otherKind

/- ## goinvestigate Request retry loop (goinvestigate.go lines 83-114) -/

def maxTries : Nat := 5

/-- One iteration of the Request retry loop, driven by the HTTP status code
each successive attempt would observe (`statuses i` is attempt number i,
counting from 0); transport-level errors are outside this model. Returns the
final outcome together with the total number of attempts performed. The loop
runs while tries <= maxTries, so the fuel starts at maxTries + 1 and the
zero-fuel fallthrough (loop exit by the counter) is unreachable below the
inner exhaustion return. -/
def requestLoop (statuses : Nat → Nat) : Nat → Nat → Except String Nat × Nat
  | tries, 0 => (.error "loop exit", tries)
  | tries, fuel + 1 =>
    let s := statuses tries
    if 400 ≤ s ∧ s < 600 then
      if s < 500 then (.error "4xx response", tries + 1)
      else if tries = maxTries then (.error "Failed all attempts. Skipping.", tries + 1)
      else requestLoop statuses (tries + 1) fuel
    else (.ok s, tries + 1)

/-- Investigate.Request on a fresh request: the retry loop from tries = 0. -/
def Request (statuses : Nat → Nat) : Except String Nat × Nat :=
  requestLoop statuses 0 (maxTries + 1)

/- ## Domain Processor (process, main.go lines 147-185) -/

/-- The two log sinks per-domain processing writes to: log.Printf on a failed
query (always printed) and inv.Logf on a failed extraction (verbose-gated,
but recorded by the logger either way). -/
inductive LogEvent where
  | queryError (domain : String) (err : String)
  | extractError (err : String)
deriving Repr, DecidableEq

/-- The result-draining loop of process for one domain: reads each query's
result in planning order; a query error logs and abandons the domain
(continue domainLoop); an extraction error logs and skips only that sub-row
(bare continue); otherwise the sub-row is appended. Returns the row to emit
(none when abandoned) and the log events in order. -/
def processResults (c : Config) (domain : String) (row : List String) :
    List DomainQueryResponse → Option (List String) × List LogEvent
  | [] => (some row, [])
  | qmResp :: rest =>
    match qmResp with
    | .error e => (none, [.queryError domain e])
    | .ok resp =>
      match ExtractCSVSubRow c resp with
      | .error e =>
        let (out, logs) := processResults c domain row rest
        (out, .extractError e :: logs)
      | .ok subRow => processResults c domain (row ++ subRow) rest

/-- Per-domain body of process: the row starts as [domain] and each sub-row
is concatenated in planning order. -/
def processDomain (c : Config) (domain : String)
    (results : List DomainQueryResponse) : Option (List String) × List LogEvent :=
  processResults c domain [domain] results

/-- The domain loop of process: one (domain, results) pair per input domain;
emitted rows and log events are collected in order. -/
def processAll (c : Config) :
    List (String × List DomainQueryResponse) → List (List String) × List LogEvent
  | [] => ([], [])
  | (domain, results) :: rest =>
    let (out, logs) := processDomain c domain results
    let (rows, logs2) := processAll c rest
    (match out with
     | some row => row :: rows
     | none => rows, logs ++ logs2)

/- ## Derived forms and auxiliary definitions used by the theorems -/

/-- Non-accumulator form of the appendFields closure: the names whose flag is
true, in field order, with the "Labels" toggle excluded. -/
def headerNames : List (String × Bool) → List String
  | [] => []
  | nb :: rest => (if nb.1 != "Labels" && nb.2 then [nb.1] else []) ++ headerNames rest

/-- One payload of the expected type per endpoint, used to express properties
that quantify over a full response set. -/
structure ResponseEnv where
  cat : DomainCategorization
  cooc : List Cooccurrence
  rel : List RelatedDomain
  sec : SecurityFeatures
  tags : List DomainTag
  hist : DomainRRHistory

/-- The payload of the expected runtime type for a planned query, drawn from
a response environment. -/
def expectedResp (env : ResponseEnv) : DomainQueryType → GoinvResp
  | .categorizationQuery _ _ => .domainCat env.cat
  | .cooccurrencesQuery _ => .coocList env.cooc
  | .relatedQuery _ => .relatedList env.rel
  | .securityQuery _ => .secFeatures env.sec
  | .domainTagsQuery _ => .tagList env.tags
  | .domainRRHistoryQuery _ _ => .rrHistory env.hist

/-- The header columns contributed by one planned query's section, in
DeriveHeader's order. -/
def headerFieldsForQuery (c : Config) : DomainQueryType → List String
  | .categorizationQuery _ _ =>
      appendField [] "Status" c.Status ++ headerNames (categoriesFields c.Categories)
  | .cooccurrencesQuery _ => ["Cooccurrences"]
  | .relatedQuery _ => ["RelatedDomains"]
  | .securityQuery _ => headerNames (securityFields c.Security)
  | .domainTagsQuery _ => ["TaggingDates"]
  | .domainRRHistoryQuery _ _ =>
      (if anyPeriods c.DomainRRHistory.Periods then ["RR Periods"] else []) ++
      headerNames (featuresFields c.DomainRRHistory.Features)

/-- The true-flag column names of the Security section, in declared order. -/
def specSecurityCols (s : SecurityConfig) : List String :=
  (if s.DGAScore then ["DGAScore"] else []) ++
  (if s.Perplexity then ["Perplexity"] else []) ++
  (if s.Entropy then ["Entropy"] else []) ++
  (if s.SecureRank2 then ["SecureRank2"] else []) ++
  (if s.PageRank then ["PageRank"] else []) ++
  (if s.ASNScore then ["ASNScore"] else []) ++
  (if s.PrefixScore then ["PrefixScore"] else []) ++
  (if s.RIPScore then ["RIPScore"] else []) ++
  (if s.Popularity then ["Popularity"] else []) ++
  (if s.Fastflux then ["Fastflux"] else []) ++
  (if s.Geodiversity then ["Geodiversity"] else []) ++
  (if s.GeodiversityNormalized then ["GeodiversityNormalized"] else []) ++
  (if s.TLDGeodiversity then ["TLDGeodiversity"] else []) ++
  (if s.Geoscore then ["Geoscore"] else []) ++
  (if s.KSTest then ["KSTest"] else []) ++
  (if s.Attack then ["Attack"] else []) ++
  (if s.ThreatType then ["ThreatType"] else [])

/-- The true-flag column names of the RRHistory Features section, in declared
order. -/
def specFeatureCols (f : DomainRRHistoryFeaturesConfig) : List String :=
  (if f.Age then ["Age"] else []) ++
  (if f.TTLsMin then ["TTLsMin"] else []) ++
  (if f.TTLsMax then ["TTLsMax"] else []) ++
  (if f.TTLsMean then ["TTLsMean"] else []) ++
  (if f.TTLsMedian then ["TTLsMedian"] else []) ++
  (if f.TTLsStdDev then ["TTLsStdDev"] else []) ++
  (if f.CountryCodes then ["CountryCodes"] else []) ++
  (if f.ASNs then ["ASNs"] else []) ++
  (if f.Prefixes then ["Prefixes"] else []) ++
  (if f.RIPSCount then ["RIPSCount"] else []) ++
  (if f.RIPSDiversity then ["RIPSDiversity"] else []) ++
  (if f.Locations then ["Locations"] else []) ++
  (if f.GeoDistanceSum then ["GeoDistanceSum"] else []) ++
  (if f.GeoDistanceMean then ["GeoDistanceMean"] else []) ++
  (if f.NonRoutable then ["NonRoutable"] else []) ++
  (if f.MailExchanger then ["MailExchanger"] else []) ++
  (if f.CName then ["CName"] else []) ++
  (if f.FFCandidate then ["FFCandidate"] else []) ++
  (if f.RIPSStability then ["RIPSStability"] else []) ++
  (if f.BaseDomain then ["BaseDomain"] else []) ++
  (if f.IsSubdomain then ["IsSubdomain"] else [])

/-- The canonical column order as the specification words it: Domain, Status
if set, the true Categories flag names without the Labels toggle, one
Cooccurrences marker if active, one RelatedDomains marker if active, each
true Security flag name, one TaggingDates marker if active, one RR Periods
marker if the Periods sub-section is active, and each true RRHistory
Features flag name. -/
def specCanonicalHeader (c : Config) : List String :=
  ["Domain"] ++
  (if c.Status then ["Status"] else []) ++
  (if c.Categories.SecurityCategories then ["SecurityCategories"] else []) ++
  (if c.Categories.ContentCategories then ["ContentCategories"] else []) ++
  (if anyDomainScore c.Cooccurrences then ["Cooccurrences"] else []) ++
  (if anyDomainScore c.Related then ["RelatedDomains"] else []) ++
  specSecurityCols c.Security ++
  (if anyTaggingDates c.TaggingDates then ["TaggingDates"] else []) ++
  (if anyPeriods c.DomainRRHistory.Periods then ["RR Periods"] else []) ++
  specFeatureCols c.DomainRRHistory.Features

/-- The default configuration (README: all options set to true). -/
def configAllOn : Config where
  APIKey := "k"
  Status := true
  Categories := ⟨true, true, true⟩
  Cooccurrences := ⟨true, true⟩
  Related := ⟨true, true⟩
  Security := ⟨true, true, true, true, true, true, true, true, true, true,
    true, true, true, true, true, true, true⟩
  TaggingDates := ⟨true, true, true, true⟩
  DomainRRHistory :=
    ⟨⟨true, true, true, true, true, true, true⟩,
     ⟨true, true, true, true, true, true, true, true, true, true, true,
      true, true, true, true, true, true, true, true, true, true⟩⟩

/- ## Basic lemmas -/

theorem appendIf_length (s : List String) (v : String) (b : Bool) :
    (appendIf s v b).length = s.length + (if b then 1 else 0) := by
  cases b <;> simp [appendIf]

theorem cond_append (h x : List String) (b : Bool) :
    (if b then h ++ x else h) = h ++ (if b then x else []) := by
  cases b <;> simp

theorem mem_cond_singleton (x n : String) (b : Bool) :
    x ∈ (if b then [n] else []) ↔ b = true ∧ x = n := by
  cases b <;> simp

theorem appendFieldsOver_eq (l : List (String × Bool)) :
    ∀ h, appendFieldsOver h l = h ++ headerNames l := by
  induction l with
  | nil => intro h; simp [appendFieldsOver, headerNames]
  | cons nb rest ih =>
    intro h
    by_cases hc : (nb.1 != "Labels" && nb.2) = true
    · simp [appendFieldsOver, headerNames, hc, ih]
    · simp [appendFieldsOver, headerNames, hc, ih]

theorem deriveHeader_eq (c : Config) :
    DeriveHeader c =
      ["Domain"] ++ (if c.Status then ["Status"] else []) ++
      headerNames (categoriesFields c.Categories) ++
      (if anyDomainScore c.Cooccurrences then ["Cooccurrences"] else []) ++
      (if anyDomainScore c.Related then ["RelatedDomains"] else []) ++
      headerNames (securityFields c.Security) ++
      (if anyTaggingDates c.TaggingDates then ["TaggingDates"] else []) ++
      (if anyPeriods c.DomainRRHistory.Periods then ["RR Periods"] else []) ++
      headerNames (featuresFields c.DomainRRHistory.Features) := by
  by_cases h1 : c.Status <;> by_cases h2 : anyDomainScore c.Cooccurrences <;>
    by_cases h3 : anyDomainScore c.Related <;> by_cases h4 : anyTaggingDates c.TaggingDates <;>
    by_cases h5 : anyPeriods c.DomainRRHistory.Periods <;>
    simp [DeriveHeader, appendField, appendFieldsOver_eq, h1, h2, h3, h4, h5, List.append_assoc]

theorem headerNames_categories (cc : CategoriesConfig) :
    headerNames (categoriesFields cc) =
      (if cc.SecurityCategories then ["SecurityCategories"] else []) ++
      (if cc.ContentCategories then ["ContentCategories"] else []) := by
  simp [headerNames, categoriesFields]

theorem headerNames_security (s : SecurityConfig) :
    headerNames (securityFields s) = specSecurityCols s := by
  simp [headerNames, securityFields, specSecurityCols]

theorem headerNames_features (f : DomainRRHistoryFeaturesConfig) :
    headerNames (featuresFields f) = specFeatureCols f := by
  simp [headerNames, featuresFields, specFeatureCols]

theorem cond_singleton_length (x : String) (b : Bool) :
    (if b then [x] else []).length = if b then 1 else 0 := by
  cases b <;> simp

theorem extractDomainCatInfo_length (c : Config) (r : DomainCategorization) :
    (extractDomainCatInfo c r).length =
      (if c.Status then 1 else 0) + (if c.Categories.SecurityCategories then 1 else 0) +
      (if c.Categories.ContentCategories then 1 else 0) := by
  by_cases h1 : c.Status <;> by_cases h2 : c.Categories.SecurityCategories <;>
    by_cases h3 : c.Categories.ContentCategories <;>
    simp [extractDomainCatInfo, h1, h2, h3]

theorem relatedEntries_length (dsc : DomainScoreConfig) (l : List RelatedDomain) :
    (relatedEntries dsc l).length = if dsc.Domain || dsc.Score then l.length else 0 := by
  induction l with
  | nil => simp [relatedEntries]
  | cons rd rest ih =>
    cases hd : dsc.Domain <;> cases hs : dsc.Score <;>
      simp_all [relatedEntries, hd, hs]

theorem coocEntries_length (dsc : DomainScoreConfig) (l : List Cooccurrence) :
    (coocEntries dsc l).length = if dsc.Domain || dsc.Score then l.length else 0 := by
  induction l with
  | nil => simp [coocEntries]
  | cons cooc rest ih =>
    cases hd : dsc.Domain <;> cases hs : dsc.Score <;>
      simp_all [coocEntries, hd, hs]

theorem extractRelatedDomainInfo_length (c : Config) (resp : List RelatedDomain) :
    (extractRelatedDomainInfo c resp).length =
      if anyDomainScore c.Related then 1 else 0 := by
  by_cases ha : anyDomainScore c.Related
  · cases resp with
    | nil => simp [extractRelatedDomainInfo, ha]
    | cons rd rest =>
      have hrow := relatedEntries_length c.Related (rd :: rest)
      rw [anyDomainScore] at ha
      simp [extractRelatedDomainInfo, anyDomainScore, ha, hrow]
  · have hrow := relatedEntries_length c.Related resp
    rw [anyDomainScore] at ha
    simp only [Bool.not_eq_true] at ha
    simp [extractRelatedDomainInfo, anyDomainScore, ha, hrow]

theorem extractCooccurrenceInfo_length (c : Config) (resp : List Cooccurrence) :
    (extractCooccurrenceInfo c resp).length =
      if anyDomainScore c.Cooccurrences then 1 else 0 := by
  by_cases ha : anyDomainScore c.Cooccurrences
  · cases resp with
    | nil => simp [extractCooccurrenceInfo, ha]
    | cons cooc rest =>
      have hrow := coocEntries_length c.Cooccurrences (cooc :: rest)
      rw [anyDomainScore] at ha
      simp [extractCooccurrenceInfo, anyDomainScore, ha, hrow]
  · have hrow := coocEntries_length c.Cooccurrences resp
    rw [anyDomainScore] at ha
    simp only [Bool.not_eq_true] at ha
    simp [extractCooccurrenceInfo, anyDomainScore, ha, hrow]

theorem security_subRow_length (c : Config) (r : SecurityFeatures) :
    (extractSecurityFeaturesInfo c r).length = (specSecurityCols c.Security).length := by
  simp only [extractSecurityFeaturesInfo, appendIf_length, specSecurityCols,
    List.length_append, cond_singleton_length, List.length_nil]
  omega

theorem tagEntries_length (t : TaggingDatesConfig) (h : anyTaggingDates t = true)
    (l : List DomainTag) : (tagEntries t l).length = l.length := by
  induction l with
  | nil => simp [tagEntries]
  | cons dt rest ih =>
    rcases t with ⟨tb, te, tc, tu⟩
    simp only [anyTaggingDates] at h
    cases tb <;> cases te <;> cases tc <;> cases tu <;>
      simp_all [tagEntries, appendIf]

theorem extractDomainTagInfo_length (c : Config) (resp : List DomainTag) :
    (extractDomainTagInfo c resp).length =
      if anyTaggingDates c.TaggingDates then 1 else 0 := by
  by_cases ha : anyTaggingDates c.TaggingDates
  · cases resp with
    | nil => simp [extractDomainTagInfo, ha, tagEntries]
    | cons dt rest =>
      have hrow := tagEntries_length c.TaggingDates ha (dt :: rest)
      simp [extractDomainTagInfo, ha, hrow]
  · simp only [Bool.not_eq_true] at ha
    simp [extractDomainTagInfo, ha]

theorem featuresSubRow_length (c : Config) (f : DomainResourceRecordFeatures) :
    (featuresSubRow c f).length = (specFeatureCols c.DomainRRHistory.Features).length := by
  simp only [featuresSubRow, appendIf_length, specFeatureCols,
    List.length_append, cond_singleton_length, List.length_nil]
  omega

theorem extractDomainRRHistoryInfo_length (c : Config) (resp : DomainRRHistory) :
    (extractDomainRRHistoryInfo c resp).length =
      (if anyPeriods c.DomainRRHistory.Periods then 1 else 0) +
      (specFeatureCols c.DomainRRHistory.Features).length := by
  by_cases hp : anyPeriods c.DomainRRHistory.Periods <;>
    simp [extractDomainRRHistoryInfo, hp, featuresSubRow_length] <;> omega

theorem flatMap_cond_singleton {α β : Type} (b : Bool) (q : α) (f : α → List β) :
    (if b then [q] else []).flatMap f = if b then f q else [] := by
  cases b <;> simp

theorem headerNames_categories_inactive (cc : CategoriesConfig)
    (h : anyCategories cc = false) : headerNames (categoriesFields cc) = [] := by
  simp only [anyCategories, Bool.or_eq_false_iff] at h
  simp [headerNames_categories, h.1.2, h.2]

theorem specSecurityCols_inactive (s : SecurityConfig)
    (h : anySecurity s = false) : specSecurityCols s = [] := by
  simp only [anySecurity, Bool.or_eq_false_iff] at h
  simp_all [specSecurityCols]

theorem specFeatureCols_inactive (f : DomainRRHistoryFeaturesConfig)
    (h : anyFeatures f = false) : specFeatureCols f = [] := by
  simp only [anyFeatures, Bool.or_eq_false_iff] at h
  simp_all [specFeatureCols]

/-- The header is the Domain column followed, in plan order, by exactly the
columns of each planned query's section. -/
theorem deriveHeader_flatMap (c : Config) (d : String) :
    DeriveHeader c = "Domain" :: (DeriveMessages c d).flatMap (headerFieldsForQuery c) := by
  have e1 : (if anyCategories c.Categories || c.Status then
        appendField [] "Status" c.Status ++ headerNames (categoriesFields c.Categories)
      else []) =
      (if c.Status then ["Status"] else []) ++ headerNames (categoriesFields c.Categories) := by
    by_cases h : (anyCategories c.Categories || c.Status) = true
    · simp [h, appendField, cond_append]
    · simp only [Bool.or_eq_true, not_or, Bool.not_eq_true] at h
      simp [h.1, h.2, appendField, headerNames_categories_inactive c.Categories h.1]
  have e4 : (if anySecurity c.Security then headerNames (securityFields c.Security) else []) =
      headerNames (securityFields c.Security) := by
    by_cases h : anySecurity c.Security = true
    · simp [h]
    · simp only [Bool.not_eq_true] at h
      simp [h, headerNames_security, specSecurityCols_inactive c.Security h]
  have e6 : (if anyPeriods c.DomainRRHistory.Periods || anyFeatures c.DomainRRHistory.Features then
        (if anyPeriods c.DomainRRHistory.Periods then ["RR Periods"] else []) ++
          headerNames (featuresFields c.DomainRRHistory.Features)
      else []) =
      (if anyPeriods c.DomainRRHistory.Periods then ["RR Periods"] else []) ++
        headerNames (featuresFields c.DomainRRHistory.Features) := by
    by_cases h : (anyPeriods c.DomainRRHistory.Periods ||
        anyFeatures c.DomainRRHistory.Features) = true
    · simp [h]
    · simp only [Bool.or_eq_true, not_or, Bool.not_eq_true] at h
      simp [h.1, h.2, headerNames_features, specFeatureCols_inactive _ h.2]
  rw [deriveHeader_eq]
  simp only [DeriveMessages, List.flatMap_append, flatMap_cond_singleton, headerFieldsForQuery]
  rw [e1, e4, e6]
  simp [appendField, cond_append, List.append_assoc]

theorem mem_cond_singleton_gen {α : Type} (x q : α) (b : Bool) :
    x ∈ (if b then [q] else []) ↔ b = true ∧ x = q := by
  cases b <;> simp

theorem mem_plan_cooc (c : Config) (d dom : String)
    (hq : DomainQueryType.cooccurrencesQuery dom ∈ DeriveMessages c d) :
    anyDomainScore c.Cooccurrences = true := by
  simp only [DeriveMessages, List.mem_append, mem_cond_singleton_gen] at hq
  simp_all

theorem mem_plan_related (c : Config) (d dom : String)
    (hq : DomainQueryType.relatedQuery dom ∈ DeriveMessages c d) :
    anyDomainScore c.Related = true := by
  simp only [DeriveMessages, List.mem_append, mem_cond_singleton_gen] at hq
  simp_all

theorem mem_plan_tags (c : Config) (d dom : String)
    (hq : DomainQueryType.domainTagsQuery dom ∈ DeriveMessages c d) :
    anyTaggingDates c.TaggingDates = true := by
  simp only [DeriveMessages, List.mem_append, mem_cond_singleton_gen] at hq
  simp_all

theorem ok_toOption_getD {e a : Type} (x : a) (dflt : a) :
    ((Except.ok x : Except e a).toOption).getD dflt = x := rfl

theorem headerFields_subRow_length (c : Config) (d : String) (env : ResponseEnv) :
    ∀ q ∈ DeriveMessages c d,
      (headerFieldsForQuery c q).length =
        ((ExtractCSVSubRow c (expectedResp env q)).toOption.getD []).length := by
  intro q hq
  cases q with
  | categorizationQuery dom lbl =>
    simp [headerFieldsForQuery, expectedResp, ExtractCSVSubRow,
      extractDomainCatInfo_length, appendField, headerNames_categories,
      cond_singleton_length, ok_toOption_getD]
    by_cases h1 : c.Status <;> by_cases h2 : c.Categories.SecurityCategories <;>
      by_cases h3 : c.Categories.ContentCategories <;> simp [h1, h2, h3]
  | cooccurrencesQuery dom =>
    have ha := mem_plan_cooc c d dom hq
    simp [headerFieldsForQuery, expectedResp, ExtractCSVSubRow,
      extractCooccurrenceInfo_length, ha, ok_toOption_getD]
  | relatedQuery dom =>
    have ha := mem_plan_related c d dom hq
    simp [headerFieldsForQuery, expectedResp, ExtractCSVSubRow,
      extractRelatedDomainInfo_length, ha, ok_toOption_getD]
  | securityQuery dom =>
    simp [headerFieldsForQuery, expectedResp, ExtractCSVSubRow,
      security_subRow_length, headerNames_security, ok_toOption_getD]
  | domainTagsQuery dom =>
    have ha := mem_plan_tags c d dom hq
    simp [headerFieldsForQuery, expectedResp, ExtractCSVSubRow,
      extractDomainTagInfo_length, ha, ok_toOption_getD]
  | domainRRHistoryQuery dom qt =>
    by_cases hp : anyPeriods c.DomainRRHistory.Periods <;>
      simp [headerFieldsForQuery, expectedResp, ExtractCSVSubRow,
        extractDomainRRHistoryInfo_length, headerNames_features, hp,
        cond_singleton_length, ok_toOption_getD] <;> omega

/- ## Sample data for closed instances -/

def tagSample1 : DomainTag :=
  ⟨"http://ancgrli.prophp.org/", "Malware", ⟨"2014-04-07", "Current"⟩⟩

def tagSample2 : DomainTag :=
  ⟨"http://ancgrli.prophp.org/34/45791.html", "Malware", ⟨"2014-03-04", "2014-03-05"⟩⟩

def secSample : SecurityFeatures :=
  ⟨⟨"38.301771886101335"⟩, ⟨"0.4540313302593146"⟩, ⟨"2.5216406363433186"⟩,
   ⟨"-1.3135141095601992"⟩, ⟨"0.0262532"⟩, ⟨"-29.75810625887133"⟩,
   ⟨"-64.9070502788884"⟩, ⟨"-75.64720536038982"⟩, false, ⟨"25.335450495507196"⟩,
   [⟨"UA", ⟨"0.24074075"⟩⟩], [⟨"AP", ⟨"0.3761535390278368"⟩⟩],
   [⟨"ID", ⟨"0.3848226710420966"⟩⟩], ⟨"0"⟩, ⟨"0"⟩, "DDoS", "Malware"⟩

def rrSample : ResourceRecord := ⟨"example.com.", 86400, "IN", "A", "93.184.216.119"⟩

def featSample : DomainResourceRecordFeatures :=
  ⟨91, 86400, 172800, ⟨"129600"⟩, ⟨"129600"⟩, ⟨"43200"⟩, ["US"], [15133, 40528],
   ["93.184.208.0"], 2, ⟨"1"⟩, [⟨⟨"38"⟩, ⟨"-97"⟩⟩], ⟨"1970.1616237100388"⟩,
   ⟨"985.0808118550194"⟩, false, false, false, false, ⟨"0.5"⟩, "example.com", false⟩

def histSample : DomainRRHistory :=
  ⟨[⟨"2013-07-31", "2013-10-17", [rrSample]⟩], featSample⟩

def envSample : ResponseEnv :=
  ⟨⟨1, ["8", "15", "23"], ["Malware", "Botnet", "Trojan"]⟩,
   [⟨"download.example.com", ⟨"0.9320288065469468"⟩⟩],
   [⟨"www.example1.com", 10⟩],
   secSample,
   [tagSample1],
   histSample⟩

/- ## Claim theorems: header shape and sub-row widths -/

/-- Claim C5: for every Feature Selector S and domain D, the header length
equals 1 (the Domain column) plus the sum, over the queries of
DeriveMessages(S, D) in plan order, of the number of fields ExtractCSVSubRow
produces for that query's (type-correct, fully-populated, non-empty)
response; and the plan's endpoint order corresponds positionally to the
header's column order: the header is the Domain column followed by each
planned query's section columns in plan order, with per-query column count
equal to the per-query sub-row width. (Proved for every type-correct
response set; non-emptiness is not even needed.) -/
theorem c5_header_width_invariant (c : Config) (d : String) (env : ResponseEnv)
    (hco : env.cooc ≠ []) (hre : env.rel ≠ []) (hta : env.tags ≠ [])
    (hpe : env.hist.RRPeriods ≠ []) :
    (DeriveHeader c).length =
      1 + ((DeriveMessages c d).map
        (fun q => ((ExtractCSVSubRow c (expectedResp env q)).toOption.getD []).length)).sum ∧
    DeriveHeader c = "Domain" :: (DeriveMessages c d).flatMap (headerFieldsForQuery c) ∧
    ∀ q ∈ DeriveMessages c d,
      (headerFieldsForQuery c q).length =
        ((ExtractCSVSubRow c (expectedResp env q)).toOption.getD []).length := by
  have hmain := deriveHeader_flatMap c d
  have hlen := headerFields_subRow_length c d env
  refine ⟨?_, hmain, hlen⟩
  have hmap : (DeriveMessages c d).map (fun q => (headerFieldsForQuery c q).length) =
      (DeriveMessages c d).map
        (fun q => ((ExtractCSVSubRow c (expectedResp env q)).toOption.getD []).length) :=
    List.map_congr_left hlen
  rw [hmain]
  simp only [List.length_cons, List.length_flatMap, Function.comp_def]
  rw [hmap]
  omega

/-- Witness for C5 at the default (all-true) configuration with a concrete
fully-populated response environment. -/
theorem c5_header_width_invariant_witness :
    envSample.cooc ≠ [] ∧ envSample.rel ≠ [] ∧ envSample.tags ≠ [] ∧
    envSample.hist.RRPeriods ≠ [] ∧
    ((DeriveHeader configAllOn).length =
      1 + ((DeriveMessages configAllOn "example.com").map
        (fun q =>
          ((ExtractCSVSubRow configAllOn (expectedResp envSample q)).toOption.getD []).length)).sum ∧
    DeriveHeader configAllOn =
      "Domain" :: (DeriveMessages configAllOn "example.com").flatMap
        (headerFieldsForQuery configAllOn) ∧
    ∀ q ∈ DeriveMessages configAllOn "example.com",
      (headerFieldsForQuery configAllOn q).length =
        ((ExtractCSVSubRow configAllOn (expectedResp envSample q)).toOption.getD []).length) :=
  ⟨by decide, by decide, by decide, by decide,
   c5_header_width_invariant configAllOn "example.com" envSample
     (by decide) (by decide) (by decide) (by decide)⟩

/-- Claim C6: DeriveHeader emits the fixed canonical column order — Domain
first, then Status if set, the true Categories flag names without the
non-data Labels toggle, one Cooccurrences marker if that section is active,
one RelatedDomains marker if active, each true Security flag name, one
TaggingDates marker if active, one RR Periods marker if the Periods
sub-section is active, and each true RRHistory Features flag name — and
"Labels" never appears as a column. -/
theorem c6_canonical_header_order (c : Config) :
    DeriveHeader c = specCanonicalHeader c ∧ "Labels" ∉ DeriveHeader c := by
  have he : DeriveHeader c = specCanonicalHeader c := by
    rw [deriveHeader_eq]
    simp [specCanonicalHeader, headerNames_categories, headerNames_security,
      headerNames_features, List.append_assoc]
  refine ⟨he, ?_⟩
  rw [he]
  intro hmem
  simp [specCanonicalHeader, specSecurityCols, specFeatureCols,
    mem_cond_singleton] at hmem

/-- Claim C9: for a fixed Config, the number of fields ExtractCSVSubRow
returns depends only on the payload's runtime kind, never on the payload's
data: two payloads of the same kind always yield sub-rows of equal length. -/
theorem c9_subrow_width_data_independent (c : Config) (r1 r2 : GoinvResp)
    (h : r1.kindOf = r2.kindOf) :
    (ExtractCSVSubRow c r1).map List.length = (ExtractCSVSubRow c r2).map List.length := by
  cases r1 <;> cases r2 <;>
    simp_all [GoinvResp.kindOf, ExtractCSVSubRow, Except.map, extractDomainCatInfo_length,
      extractRelatedDomainInfo_length, extractCooccurrenceInfo_length,
      security_subRow_length, extractDomainTagInfo_length,
      extractDomainRRHistoryInfo_length]

/-- Witness for C9: a populated and an empty DomainTag payload produce
sub-rows of the same width under the default configuration. -/
theorem c9_subrow_width_data_independent_witness :
    (GoinvResp.tagList [tagSample1, tagSample2]).kindOf = (GoinvResp.tagList []).kindOf ∧
    (ExtractCSVSubRow configAllOn (.tagList [tagSample1, tagSample2])).map List.length =
      (ExtractCSVSubRow configAllOn (.tagList [])).map List.length :=
  ⟨rfl, c9_subrow_width_data_independent configAllOn _ _ rfl⟩

/- ## Claim theorems: dispatch, DomainTags collapsing, empty-collection placeholder -/

/-- A concrete client whose related-domains and cooccurrences endpoints
return distinct payloads, to observe which endpoint a query invokes. -/
def invTest : Investigate :=
  ⟨fun _ _ => .error "unused",
   fun _ => .ok [⟨"www.example1.com", 10⟩],
   fun _ => .ok [⟨"download.example.com", ⟨"0.9320288065469468"⟩⟩],
   fun _ => .error "unused",
   fun _ => .error "unused",
   fun _ _ => .error "unused"⟩

/-- Claim C1 (refuted; the code is the slip): executing a CooccurrencesQuery
invokes the client's RelatedDomains endpoint (domain_query.go lines 47-50
call q.Inv.RelatedDomains), so it yields a RelatedDomain-list payload and
never a Cooccurrence-list payload, contrary to the documented
endpoint-kind-to-method mapping. -/
theorem c1_cooccurrences_query_calls_related_endpoint :
    (∀ (inv : Investigate) (d : String),
      DomainQueryType.runQuery inv (.cooccurrencesQuery d) =
        (inv.relatedDomains d).map GoinvResp.relatedList) ∧
    DomainQueryType.runQuery invTest (.cooccurrencesQuery "example.com") =
      .ok (.relatedList [⟨"www.example1.com", 10⟩]) ∧
    ∀ l : List Cooccurrence,
      DomainQueryType.runQuery invTest (.cooccurrencesQuery "example.com") ≠
        .ok (.coocList l) := by
  refine ⟨fun inv d => rfl, rfl, ?_⟩
  intro l h
  simp [DomainQueryType.runQuery, invTest, Except.map] at h

/-- The spec's scenario-5 selector: DomainTags with Category and Begin off. -/
def configScenario5 : Config :=
  { configAllOn with TaggingDates := ⟨false, true, false, true⟩ }

/-- Claim C3: the DomainTags sub-row extraction returns at most one output
field — all tags collapse to a single comma-joined field — and two tags with
Category and Begin off render as url:end entries joined into one field. -/
theorem c3_domain_tags_single_field :
    (∀ (c : Config) (resp : List DomainTag), (extractDomainTagInfo c resp).length ≤ 1) ∧
    extractDomainTagInfo configScenario5 [tagSample1, tagSample2] =
      ["http://ancgrli.prophp.org/:Current, http://ancgrli.prophp.org/34/45791.html:2014-03-05"] := by
  constructor
  · intro c resp
    by_cases h : anyTaggingDates c.TaggingDates
    · simp only [extractDomainTagInfo, h, Bool.not_true, Bool.false_eq_true, if_false]
      split <;> simp
    · simp [extractDomainTagInfo, h]
  · decide

/-- Claim C7: for each collection-valued section, when the section is active
and the response collection is empty, the extraction yields exactly one
empty-string field; for RR-History the Periods section contributes that
single empty field ahead of the feature fields. -/
theorem c7_empty_collection_placeholder (c : Config)
    (hco : anyDomainScore c.Cooccurrences = true)
    (hre : anyDomainScore c.Related = true)
    (hta : anyTaggingDates c.TaggingDates = true)
    (hpe : anyPeriods c.DomainRRHistory.Periods = true) :
    extractCooccurrenceInfo c [] = [""] ∧
    extractRelatedDomainInfo c [] = [""] ∧
    extractDomainTagInfo c [] = [""] ∧
    ∀ f : DomainResourceRecordFeatures,
      extractDomainRRHistoryInfo c ⟨[], f⟩ = "" :: featuresSubRow c f := by
  refine ⟨?_, ?_, ?_, ?_⟩
  · simp [extractCooccurrenceInfo, hco]
  · simp [extractRelatedDomainInfo, hre]
  · simp [extractDomainTagInfo, hta, tagEntries]
  · intro f
    simp [extractDomainRRHistoryInfo, hpe, rrPeriodsToStr, periodsEntries,
      String.intercalate]

/-- Witness for C7 at the default (all-true) configuration. -/
theorem c7_empty_collection_placeholder_witness :
    anyDomainScore configAllOn.Cooccurrences = true ∧
    anyDomainScore configAllOn.Related = true ∧
    anyTaggingDates configAllOn.TaggingDates = true ∧
    anyPeriods configAllOn.DomainRRHistory.Periods = true ∧
    (extractCooccurrenceInfo configAllOn [] = [""] ∧
     extractRelatedDomainInfo configAllOn [] = [""] ∧
     extractDomainTagInfo configAllOn [] = [""] ∧
     ∀ f : DomainResourceRecordFeatures,
       extractDomainRRHistoryInfo configAllOn ⟨[], f⟩ = "" :: featuresSubRow configAllOn f) :=
  ⟨by decide, by decide, by decide, by decide,
   c7_empty_collection_placeholder configAllOn (by decide) (by decide) (by decide) (by decide)⟩

/- ## Claim theorems: rrPeriodsToStr structure -/

theorem flrr_ne_nil (pc : DomainRRHistoryPeriodConfig) (h : anyPeriods pc = true)
    (p : ResourceRecordPeriod) (rr : ResourceRecord) :
    ¬(flStrsFor pc p = [] ∧ rrStrsFor pc rr = []) := by
  rcases pc with ⟨b1, b2, b3, b4, b5, b6, b7⟩
  simp only [anyPeriods] at h
  cases b1 <;> cases b2 <;> cases b3 <;> cases b4 <;> cases b5 <;> cases b6 <;> cases b7 <;>
    simp_all [flStrsFor, rrStrsFor, appendIf]

theorem rrEntries_map (pc : DomainRRHistoryPeriodConfig) (h : anyPeriods pc = true)
    (p : ResourceRecordPeriod) (l : List ResourceRecord) :
    rrEntries pc (flStrsFor pc p) l =
      l.map (fun rr => String.intercalate ":" (flStrsFor pc p ++ rrStrsFor pc rr)) := by
  induction l with
  | nil => simp [rrEntries]
  | cons rr rest ih => simp [rrEntries, flrr_ne_nil pc h p rr, ih]

theorem periodsEntries_append (pc : DomainRRHistoryPeriodConfig)
    (l1 l2 : List ResourceRecordPeriod) :
    periodsEntries pc (l1 ++ l2) = periodsEntries pc l1 ++ periodsEntries pc l2 := by
  induction l1 with
  | nil => simp [periodsEntries]
  | cons p rest ih => simp [periodsEntries, ih]

/-- Claim C10: in rrPeriodsToStr, each resource record of each period yields
exactly one colon-joined entry carrying its period's FirstSeen/LastSeen
strings (when those flags are on), and a period with no resource records
contributes no entry at all, whatever the period-level flags say. -/
theorem c10_rr_periods_per_record_entries :
    (∀ (c : Config) (ps1 ps2 : List ResourceRecordPeriod) (p : ResourceRecordPeriod),
      p.RRs = [] →
      rrPeriodsToStr c (ps1 ++ p :: ps2) = rrPeriodsToStr c (ps1 ++ ps2)) ∧
    (∀ (c : Config) (periods : List ResourceRecordPeriod),
      anyPeriods c.DomainRRHistory.Periods = true →
      periodsEntries c.DomainRRHistory.Periods periods =
        periods.flatMap (fun p => p.RRs.map (fun rr =>
          String.intercalate ":" (flStrsFor c.DomainRRHistory.Periods p ++
            rrStrsFor c.DomainRRHistory.Periods rr)))) := by
  constructor
  · intro c ps1 ps2 p hp
    simp [rrPeriodsToStr, periodsEntries_append, periodsEntries, hp, rrEntries]
  · intro c periods h
    induction periods with
    | nil => simp [periodsEntries]
    | cons p rest ih => simp [periodsEntries, rrEntries_map _ h, ih]

/-- Witness for C10: a concrete empty-record period between two populated
ones vanishes from the rendering, and the entry list is the per-record map,
at the default configuration. -/
theorem c10_rr_periods_per_record_entries_witness :
    (ResourceRecordPeriod.mk "2014-07-28" "2014-07-29" []).RRs = [] ∧
    anyPeriods configAllOn.DomainRRHistory.Periods = true ∧
    rrPeriodsToStr configAllOn
        ([⟨"2013-07-31", "2013-10-17", [rrSample]⟩] ++
          ⟨"2014-07-28", "2014-07-29", []⟩ :: [histSample.RRPeriods.headD
            ⟨"", "", []⟩]) =
      rrPeriodsToStr configAllOn
        ([⟨"2013-07-31", "2013-10-17", [rrSample]⟩] ++ [histSample.RRPeriods.headD ⟨"", "", []⟩]) ∧
    periodsEntries configAllOn.DomainRRHistory.Periods histSample.RRPeriods =
      histSample.RRPeriods.flatMap (fun p => p.RRs.map (fun rr =>
        String.intercalate ":" (flStrsFor configAllOn.DomainRRHistory.Periods p ++
          rrStrsFor configAllOn.DomainRRHistory.Periods rr))) :=
  ⟨rfl, by decide,
   c10_rr_periods_per_record_entries.1 configAllOn _ _ _ rfl,
   c10_rr_periods_per_record_entries.2 configAllOn _ (by decide)⟩

/- ## Claim theorems: per-domain processing -/

theorem err_toOption_getD {e a : Type} (x : e) (dflt : a) :
    ((Except.error x : Except e a).toOption).getD dflt = dflt := rfl

theorem processResults_all_ok (c : Config) (d : String) (ps : List GoinvResp) :
    ∀ row, processResults c d row (ps.map Except.ok) =
      (some (row ++ ps.flatMap (fun p => (ExtractCSVSubRow c p).toOption.getD [])),
       ps.filterMap (fun p =>
         match ExtractCSVSubRow c p with
         | .error e => some (LogEvent.extractError e)
         | .ok _ => none)) := by
  induction ps with
  | nil => intro row; simp [processResults]
  | cons p rest ih =>
    intro row
    cases hx : ExtractCSVSubRow c p with
    | error e => simp [processResults, hx, ih row, err_toOption_getD]
    | ok subRow => simp [processResults, hx, ih (row ++ subRow), ok_toOption_getD]

/-- Claim C2 as amended: when a domain's query results all succeed but
ExtractCSVSubRow fails on some payloads, each failing payload is logged and
contributes no fields, yet the domain is NOT abandoned — the row, missing
only the failing sub-rows, is still emitted (the source uses a bare
`continue`, not `continue domainLoop`, in main.go line 177). -/
theorem c2_extract_error_skips_subrow_only (c : Config) (d : String)
    (ps : List GoinvResp) :
    processDomain c d (ps.map Except.ok) =
      (some (d :: ps.flatMap (fun p => (ExtractCSVSubRow c p).toOption.getD [])),
       ps.filterMap (fun p =>
         match ExtractCSVSubRow c p with
         | .error e => some (LogEvent.extractError e)
         | .ok _ => none)) := by
  simpa [processDomain] using processResults_all_ok c d ps [d]

/-- Counterexample to claim C2 as stated: a domain whose single query result
carries an invalid-typed payload makes ExtractCSVSubRow fail, the internal
error is logged — and a row for the domain IS still emitted, so the domain
is not abandoned. -/
theorem c2_extract_error_counterexample :
    (processDomain configAllOn "x" [Except.ok GoinvResp.other]).fst = some ["x"] ∧
    (processDomain configAllOn "x" [Except.ok GoinvResp.other]).snd =
      [LogEvent.extractError "invalid type"] := by
  decide

theorem processResults_query_error (c : Config) (d : String) :
    ∀ (rs : List DomainQueryResponse) (row : List String),
      (∃ e, Except.error e ∈ rs) →
      (processResults c d row rs).fst = none ∧
      ∃ e, LogEvent.queryError d e ∈ (processResults c d row rs).snd := by
  intro rs
  induction rs with
  | nil => intro row h; simp at h
  | cons r rest ih =>
    intro row h
    cases r with
    | error e => refine ⟨by simp [processResults], e, by simp [processResults]⟩
    | ok resp =>
      have hrest : ∃ e, Except.error e ∈ rest := by
        obtain ⟨e, he⟩ := h
        simp at he
        exact ⟨e, he⟩
      cases hx : ExtractCSVSubRow c resp with
      | error e2 =>
        have := ih row hrest
        refine ⟨?_, ?_⟩
        · simp [processResults, hx]
          exact this.1
        · obtain ⟨e, he⟩ := this.2
          exact ⟨e, by simp [processResults, hx]; exact he⟩
      | ok subRow =>
        have := ih (row ++ subRow) hrest
        exact ⟨by simp [processResults, hx, this.1], this.2.imp (fun e he => by
          simpa [processResults, hx] using he)⟩

/-- Claim C4: a query-level error abandons the whole domain — no row is
emitted for it, the domain and error are logged, and the following domains
are processed exactly as they would have been. -/
theorem c4_query_error_abandons_domain (c : Config) (d : String)
    (rs : List DomainQueryResponse) (rest : List (String × List DomainQueryResponse))
    (h : ∃ e, Except.error e ∈ rs) :
    (processDomain c d rs).fst = none ∧
    (processAll c ((d, rs) :: rest)).fst = (processAll c rest).fst ∧
    ∃ e, LogEvent.queryError d e ∈ (processDomain c d rs).snd := by
  have hmain := processResults_query_error c d rs [d] h
  refine ⟨hmain.1, ?_, hmain.2⟩
  simp only [processAll, processDomain] at hmain ⊢
  rw [hmain.1]

/-- Witness for C4: a 403 on the single query of "bad.com" yields no row for
it while "good.com" still yields its (domain-only) row. -/
theorem c4_query_error_abandons_domain_witness :
    (∃ e, Except.error e ∈ ([Except.error "403 auth"] : List DomainQueryResponse)) ∧
    ((processDomain configAllOn "bad.com" [Except.error "403 auth"]).fst = none ∧
     (processAll configAllOn
        [("bad.com", [Except.error "403 auth"]), ("good.com", [])]).fst =
       (processAll configAllOn [("good.com", [])]).fst ∧
     ∃ e, LogEvent.queryError "bad.com" e ∈
       (processDomain configAllOn "bad.com" [Except.error "403 auth"]).snd) :=
  ⟨⟨"403 auth", by simp⟩,
   c4_query_error_abandons_domain configAllOn "bad.com" _ _ ⟨"403 auth", by simp⟩⟩

/- ## Claim theorems: retry loop -/

theorem requestLoop_snd_le (statuses : Nat → Nat) :
    ∀ (fuel tries : Nat), tries + fuel = maxTries + 1 →
      (requestLoop statuses tries fuel).snd ≤ maxTries + 1 := by
  intro fuel
  induction fuel with
  | zero => intro tries h; simp [requestLoop]; omega
  | succ fuel ih =>
    intro tries h
    by_cases h1 : (400 ≤ statuses tries ∧ statuses tries < 600)
    · by_cases h2 : statuses tries < 500
      · simp [requestLoop, h1, h2]; omega
      · by_cases h3 : tries = maxTries
        · subst h3; simp [requestLoop, h1, h2]
        · have := ih (tries + 1) (by omega)
          simpa [requestLoop, h1, h2, h3] using this
    · simp [requestLoop, h1]; omega

theorem requestLoop_retried_only_5xx (statuses : Nat → Nat) :
    ∀ (fuel tries n : Nat), tries ≤ n →
      n + 1 < (requestLoop statuses tries fuel).snd →
      500 ≤ statuses n ∧ statuses n < 600 := by
  intro fuel
  induction fuel with
  | zero =>
    intro tries n hle hlt
    simp [requestLoop] at hlt
    omega
  | succ fuel ih =>
    intro tries n hle hlt
    by_cases h1 : (400 ≤ statuses tries ∧ statuses tries < 600)
    · by_cases h2 : statuses tries < 500
      · simp [requestLoop, h1, h2] at hlt; omega
      · by_cases h3 : tries = maxTries
        · subst h3; simp [requestLoop, h1, h2] at hlt; omega
        · simp only [requestLoop, h1, h2, h3, if_true, if_false, and_self,
            reduceIte] at hlt
          rcases Nat.lt_or_ge tries n with hcase | hcase
          · exact ih (tries + 1) n (by omega) (by
              simpa [requestLoop, h1, h2, h3] using hlt)
          · have hn : n = tries := by omega
            subst hn
            exact ⟨by omega, h1.2⟩
    · simp [requestLoop, h1] at hlt; omega

theorem requestLoop_all5xx_error (statuses : Nat → Nat)
    (hall : ∀ i, 500 ≤ statuses i ∧ statuses i < 600) :
    ∀ (fuel tries : Nat), ∃ e, (requestLoop statuses tries fuel).fst = .error e := by
  intro fuel
  induction fuel with
  | zero => intro tries; exact ⟨"loop exit", rfl⟩
  | succ fuel ih =>
    intro tries
    have h1 : (400 ≤ statuses tries ∧ statuses tries < 600) :=
      ⟨by have := (hall tries).1; omega, (hall tries).2⟩
    have h2 : ¬(statuses tries < 500) := by have := (hall tries).1; omega
    by_cases h3 : tries = maxTries
    · subst h3
      exact ⟨"Failed all attempts. Skipping.", by simp [requestLoop, h1, h2]⟩
    · obtain ⟨e, he⟩ := ih (tries + 1)
      exact ⟨e, by simpa [requestLoop, h1, h2, h3] using he⟩

/-- Counterexample to claim C8 as stated: when every attempt gets a 500, the
retry loop performs 6 attempts, not at most 5 (the loop runs while
tries <= maxTries with maxTries = 5, admitting attempt indices 0..5). -/
theorem c8_retry_bound_counterexample :
    (Request (fun _ => 500)).snd = 6 ∧ ¬((Request (fun _ => 500)).snd ≤ 5) := by
  decide

/-- Claim C8 as amended: each remote query is attempted at most 6 times
(maxTries + 1); a 4xx response returns an error immediately after a single
attempt with no retry; an attempt is followed by another only when it saw a
5xx; and all attempts exhausting on 5xx yields an error, not a response. -/
theorem c8_retry_bound_amended (statuses : Nat → Nat) :
    (Request statuses).snd ≤ 6 ∧
    (400 ≤ statuses 0 → statuses 0 < 500 →
      Request statuses = (.error "4xx response", 1)) ∧
    (∀ n, n + 1 < (Request statuses).snd → 500 ≤ statuses n ∧ statuses n < 600) ∧
    ((∀ i, 500 ≤ statuses i ∧ statuses i < 600) →
      ∃ e, (Request statuses).fst = .error e) := by
  refine ⟨requestLoop_snd_le statuses (maxTries + 1) 0 (by omega), ?_, ?_, ?_⟩
  · intro h4 h5
    have h1 : (400 ≤ statuses 0 ∧ statuses 0 < 600) := ⟨h4, by omega⟩
    simp [Request, maxTries, requestLoop, h1, h5]
  · intro n hlt
    exact requestLoop_retried_only_5xx statuses (maxTries + 1) 0 n (Nat.zero_le n) hlt
  · intro hall
    exact requestLoop_all5xx_error statuses hall (maxTries + 1) 0

/-- Witness for C8 (amended): a 404 on the first attempt errors immediately
with exactly one attempt, and the bound holds there. -/
theorem c8_retry_bound_amended_witness :
    (Request (fun _ => 404)).snd ≤ 6 ∧
    Request (fun _ => 404) = (.error "4xx response", 1) :=
  ⟨(c8_retry_bound_amended (fun _ => 404)).1,
   (c8_retry_bound_amended (fun _ => 404)).2.1 (by decide) (by decide)⟩
